import Mathlib

/-!
Verification development for the LSM6DS33 accelerometer/gyro driver
(`usb-imu-lsm6.X/lsm6.h`).

The header file defines the register address map, the device handle
structure `LSM6`, and declares the driver operations together with their
documented behavior.  The operations are embedded here as pure Lean
functions over an explicit device-handle state, a bus-transaction trace,
and a deterministic bus environment (the external I2C transport).
-/

/-- Device variant selector, from `enum LSM6DeviceType` in `lsm6.h`. -/
inductive LSM6DeviceType where
  | LSM6_DEVICE_TYPE_AUTO
  | LSM6_DEVICE_TYPE_DS33
deriving DecidableEq, Repr

/-- Address-select (SA0) pin state, from `enum LSM6SA0State` in `lsm6.h`. -/
inductive LSM6SA0State where
  | LSM6_SA0_AUTO
  | LSM6_SA0_LOW
  | LSM6_SA0_HIGH
deriving DecidableEq, Repr

/-! Register address constants, from `enum LSM6RegAddr` in `lsm6.h`. -/

def LSM6_FUNC_CFG_ACCESS : Nat := 0x01
def LSM6_FIFO_CTRL1 : Nat := 0x06
def LSM6_FIFO_CTRL2 : Nat := 0x07
def LSM6_FIFO_CTRL3 : Nat := 0x08
def LSM6_FIFO_CTRL4 : Nat := 0x09
def LSM6_FIFO_CTRL5 : Nat := 0x0A
def LSM6_ORIENT_CFG_G : Nat := 0x0B
def LSM6_INT1_CTRL : Nat := 0x0D
def LSM6_INT2_CTRL : Nat := 0x0E
def LSM6_WHO_AM_I : Nat := 0x0F
def LSM6_CTRL1_XL : Nat := 0x10
def LSM6_CTRL2_G : Nat := 0x11
def LSM6_CTRL3_C : Nat := 0x12
def LSM6_CTRL4_C : Nat := 0x13
def LSM6_CTRL5_C : Nat := 0x14
def LSM6_CTRL6_C : Nat := 0x15
def LSM6_CTRL7_G : Nat := 0x16
def LSM6_CTRL8_XL : Nat := 0x17
def LSM6_CTRL9_XL : Nat := 0x18
def LSM6_CTRL10_C : Nat := 0x19
def LSM6_WAKE_UP_SRC : Nat := 0x1B
def LSM6_TAP_SRC : Nat := 0x1C
def LSM6_D6D_SRC : Nat := 0x1D
def LSM6_STATUS_REG : Nat := 0x1E
def LSM6_OUT_TEMP_L : Nat := 0x20
def LSM6_OUT_TEMP_H : Nat := 0x21
def LSM6_OUTX_L_G : Nat := 0x22
def LSM6_OUTX_H_G : Nat := 0x23
def LSM6_OUTY_L_G : Nat := 0x24
def LSM6_OUTY_H_G : Nat := 0x25
def LSM6_OUTZ_L_G : Nat := 0x26
def LSM6_OUTZ_H_G : Nat := 0x27
def LSM6_OUTX_L_XL : Nat := 0x28
def LSM6_OUTX_H_XL : Nat := 0x29
def LSM6_OUTY_L_XL : Nat := 0x2A
def LSM6_OUTY_H_XL : Nat := 0x2B
def LSM6_OUTZ_L_XL : Nat := 0x2C
def LSM6_OUTZ_H_XL : Nat := 0x2D
def LSM6_FIFO_STATUS1 : Nat := 0x3A
def LSM6_FIFO_STATUS2 : Nat := 0x3B
def LSM6_FIFO_STATUS3 : Nat := 0x3C
def LSM6_FIFO_STATUS4 : Nat := 0x3D
def LSM6_FIFO_DATA_OUT_L : Nat := 0x3E
def LSM6_FIFO_DATA_OUT_H : Nat := 0x3F
def LSM6_TIMESTAMP0_REG : Nat := 0x40
def LSM6_TIMESTAMP1_REG : Nat := 0x41
def LSM6_TIMESTAMP2_REG : Nat := 0x42
def LSM6_STEP_TIMESTAMP_L : Nat := 0x49
def LSM6_STEP_TIMESTAMP_H : Nat := 0x4A
def LSM6_STEP_COUNTER_L : Nat := 0x4B
def LSM6_STEP_COUNTER_H : Nat := 0x4C
def LSM6_FUNC_SRC : Nat := 0x53
def LSM6_TAP_CFG : Nat := 0x58
def LSM6_TAP_THS_6D : Nat := 0x59
def LSM6_INT_DUR2 : Nat := 0x5A
def LSM6_WAKE_UP_THS : Nat := 0x5B
def LSM6_WAKE_UP_DUR : Nat := 0x5C
def LSM6_FREE_FALL : Nat := 0x5D
def LSM6_MD1_CFG : Nat := 0x5E
def LSM6_MD2_CFG : Nat := 0x5F

/-- A single bus transaction issued by the driver to the external transport:
either a write of a byte sequence to a device address, or a read of a
given number of bytes from a device address. -/
inductive BusReq where
  | write (devAddr : Nat) (data : List Nat)
  | read (devAddr : Nat) (count : Nat)
deriving DecidableEq, Repr

/-- The transport's response to one bus transaction: a status byte
(0 means success, non-zero an error) and, for reads, the bytes returned. -/
structure BusResp where
  status : Nat
  data : List Nat
deriving DecidableEq, Repr

/-- A deterministic bus environment: given the history of transactions
already issued and the current request, it produces the response.
This models an arbitrary (possibly stateful, possibly failing) external
I2C transport. -/
def Env : Type := List BusReq → BusReq → BusResp

/-- The device handle, from `struct LSM6` in `lsm6.h`: device variant,
7-bit bus address, status of the most recent transfer (`lastResult`,
0 = success), and the last raw accelerometer (`a`) and gyro (`g`) sample
triples in XYZ order (signed 16-bit values). -/
structure LSM6 where
  device : LSM6DeviceType
  address : Nat
  lastResult : Nat
  a : List Int
  g : List Int
deriving DecidableEq, Repr

/-- Issue one bus write: consult the environment and append the request
to the trace. -/
def busWrite (env : Env) (tr : List BusReq) (devAddr : Nat) (data : List Nat) :
    BusResp × List BusReq :=
  (env tr (BusReq.write devAddr data), tr ++ [BusReq.write devAddr data])

/-- Issue one bus read: consult the environment and append the request
to the trace. -/
def busRead (env : Env) (tr : List BusReq) (devAddr : Nat) (count : Nat) :
    BusResp × List BusReq :=
  (env tr (BusReq.read devAddr count), tr ++ [BusReq.read devAddr count])

/-- Combined status of a write-then-read transfer: the error of the first
failing part, 0 when both parts succeeded. -/
def combineStatus (s1 s2 : Nat) : Nat :=
  if s1 ≠ 0 then s1 else s2

/-- Interpretation of a 16-bit word as a two's-complement signed value. -/
def s16 (v : Nat) : Int :=
  if v % 65536 < 32768 then ((v % 65536 : Nat) : Int)
  else ((v % 65536 : Nat) : Int) - 65536

/-- Little-endian reassembly of two bytes into a 16-bit word
(low byte first, as the driver stores samples). -/
def word16 (lo hi : Nat) : Nat :=
  lo % 256 + 256 * (hi % 256)

/-- Assemble a 6-byte register block into three signed 16-bit axis values
in XYZ order, low byte before high byte. -/
def assembleAxes (d : List Nat) : List Int :=
  [ s16 (word16 (d.getD 0 0) (d.getD 1 0)),
    s16 (word16 (d.getD 2 0) (d.getD 3 0)),
    s16 (word16 (d.getD 4 0) (d.getD 5 0)) ]

/-- Modelled from the spec: `lsm6WriteReg` (implementation `lsm6.c` is not
in the sources; only its declaration and documentation are).  Issues a
two-byte bus write of the register address followed by the value, and sets
`lastResult` from the transport result. -/
def lsm6WriteReg (env : Env) (s : LSM6) (tr : List BusReq) (reg value : Nat) :
    LSM6 × List BusReq :=
  let wr := busWrite env tr s.address [reg % 256, value % 256]
  ({ s with lastResult := wr.1.status }, wr.2)

/-- Modelled from the spec: `lsm6ReadReg` (implementation `lsm6.c` is not
in the sources).  Issues a bus write of the register address followed by a
one-byte bus read, sets `lastResult`, and returns the byte read (the byte
is whatever the transport returned; callers must check `lastResult`). -/
def lsm6ReadReg (env : Env) (s : LSM6) (tr : List BusReq) (reg : Nat) :
    (LSM6 × List BusReq) × Nat :=
  let wr := busWrite env tr s.address [reg % 256]
  let rd := busRead env wr.2 s.address 1
  (({ s with lastResult := combineStatus wr.1.status rd.1.status }, rd.2),
   rd.1.data.headD 0 % 256)

/-- Modelled from the spec: `lsm6ReadAcc` (implementation `lsm6.c` is not
in the sources).  Reads 6 consecutive bytes starting at the X-low
accelerometer register and assembles three little-endian signed 16-bit
values into `a`; `lastResult` is set from the transfer; per the spec's
failure semantics, a failed read still stores values assembled from
whatever bytes the transport returned. -/
def lsm6ReadAcc (env : Env) (s : LSM6) (tr : List BusReq) : LSM6 × List BusReq :=
  let wr := busWrite env tr s.address [LSM6_OUTX_L_XL]
  let rd := busRead env wr.2 s.address 6
  ({ s with lastResult := combineStatus wr.1.status rd.1.status,
            a := assembleAxes rd.1.data }, rd.2)

/-- Modelled from the spec: `lsm6ReadGyro` (implementation `lsm6.c` is not
in the sources).  Same pattern as `lsm6ReadAcc` over the gyro register
block, storing into `g`. -/
def lsm6ReadGyro (env : Env) (s : LSM6) (tr : List BusReq) : LSM6 × List BusReq :=
  let wr := busWrite env tr s.address [LSM6_OUTX_L_G]
  let rd := busRead env wr.2 s.address 6
  ({ s with lastResult := combineStatus wr.1.status rd.1.status,
            g := assembleAxes rd.1.data }, rd.2)

/-- Modelled from the spec: `lsm6Read` (implementation `lsm6.c` is not in
the sources).  Convenience call reading both sensor blocks: the
accelerometer block transfer followed by the gyro block transfer, storing
into `a` and `g`.  Written out transaction by transaction; its equivalence
with `lsm6ReadAcc` followed by `lsm6ReadGyro` is proved below. -/
def lsm6Read (env : Env) (s : LSM6) (tr : List BusReq) : LSM6 × List BusReq :=
  let wrA := busWrite env tr s.address [LSM6_OUTX_L_XL]
  let rdA := busRead env wrA.2 s.address 6
  let wrG := busWrite env rdA.2 s.address [LSM6_OUTX_L_G]
  let rdG := busRead env wrG.2 s.address 6
  ({ s with lastResult := combineStatus wrG.1.status rdG.1.status,
            a := assembleAxes rdA.1.data,
            g := assembleAxes rdG.1.data }, rdG.2)

/-- Modelled from the spec: CTRL1_XL default value written by
`lsm6EnableDefault` — 1.66 kHz (high performance) accelerometer ODR with
the power-on ±2 g full scale. -/
def LSM6_CTRL1_XL_DEFAULT : Nat := 0x80

/-- Modelled from the spec: CTRL2_G default value written by
`lsm6EnableDefault` — 1.66 kHz (high performance) gyro ODR with the
power-on 245 dps full scale. -/
def LSM6_CTRL2_G_DEFAULT : Nat := 0x80

/-- Modelled from the spec: CTRL3_C default value written by
`lsm6EnableDefault` — the IF_INC bit, enabling automatic register-address
increment during multi-byte access. -/
def LSM6_CTRL3_C_DEFAULT : Nat := 0x04

/-- Modelled from the spec: `lsm6EnableDefault` (implementation `lsm6.c`
is not in the sources).  Writes the fixed default configuration values to
CTRL1_XL, CTRL2_G and CTRL3_C. -/
def lsm6EnableDefault (env : Env) (s : LSM6) (tr : List BusReq) : LSM6 × List BusReq :=
  let w1 := lsm6WriteReg env s tr LSM6_CTRL1_XL LSM6_CTRL1_XL_DEFAULT
  let w2 := lsm6WriteReg env w1.1 w1.2 LSM6_CTRL2_G LSM6_CTRL2_G_DEFAULT
  lsm6WriteReg env w2.1 w2.2 LSM6_CTRL3_C LSM6_CTRL3_C_DEFAULT

/-- Modelled from the spec: the device's bus address when the SA0 pin is
low (candidate address probed by `lsm6Init`; `lsm6.c` is not in the
sources). -/
def LSM6_SA0_LOW_ADDR : Nat := 0x6A

/-- Modelled from the spec: the device's bus address when the SA0 pin is
high (the other candidate address probed by `lsm6Init`). -/
def LSM6_SA0_HIGH_ADDR : Nat := 0x6B

/-- Modelled from the spec: the expected WHO_AM_I identity byte of the
LSM6DS33. -/
def LSM6_DS33_WHO_ID : Nat := 0x69

/-- Modelled from the spec: the identity probe used by `lsm6Init`: read
the WHO_AM_I register at a candidate bus address; the candidate responds
correctly when both transfer parts succeed and the byte returned is the
expected identity value. -/
def lsm6TestWhoAmI (env : Env) (tr : List BusReq) (devAddr : Nat) :
    Bool × List BusReq :=
  let wr := busWrite env tr devAddr [LSM6_WHO_AM_I]
  let rd := busRead env wr.2 devAddr 1
  (wr.1.status == 0 && rd.1.status == 0 && rd.1.data.headD 0 % 256 == LSM6_DS33_WHO_ID,
   rd.2)

/-- Modelled from the spec: `lsm6Init` (implementation `lsm6.c` is not
in the sources).  Resolves the bus address from the SA0 state: a forced
state selects the corresponding address and succeeds exactly when the
identity probe at that address responds correctly; the auto state probes
both candidate addresses and succeeds exactly when exactly one responds
correctly, selecting that address.  Returns 1 for success and 0 for
failure; on success the handle's device and address fields are set. -/
def lsm6Init (env : Env) (s : LSM6) (tr : List BusReq)
    (dev : LSM6DeviceType) (sa0 : LSM6SA0State) : (LSM6 × List BusReq) × Nat :=
  let resolved := match dev with
    | LSM6DeviceType.LSM6_DEVICE_TYPE_AUTO => LSM6DeviceType.LSM6_DEVICE_TYPE_DS33
    | d => d
  match sa0 with
  | LSM6SA0State.LSM6_SA0_LOW =>
      let t := lsm6TestWhoAmI env tr LSM6_SA0_LOW_ADDR
      if t.1 then
        (({ s with device := resolved,
                   address := LSM6_SA0_LOW_ADDR }, t.2), 1)
      else ((s, t.2), 0)
  | LSM6SA0State.LSM6_SA0_HIGH =>
      let t := lsm6TestWhoAmI env tr LSM6_SA0_HIGH_ADDR
      if t.1 then
        (({ s with device := resolved,
                   address := LSM6_SA0_HIGH_ADDR }, t.2), 1)
      else ((s, t.2), 0)
  | LSM6SA0State.LSM6_SA0_AUTO =>
      let tLow := lsm6TestWhoAmI env tr LSM6_SA0_LOW_ADDR
      let tHigh := lsm6TestWhoAmI env tLow.2 LSM6_SA0_HIGH_ADDR
      if tLow.1 && !tHigh.1 then
        (({ s with device := resolved,
                   address := LSM6_SA0_LOW_ADDR }, tHigh.2), 1)
      else if tHigh.1 && !tLow.1 then
        (({ s with device := resolved,
                   address := LSM6_SA0_HIGH_ADDR }, tHigh.2), 1)
      else ((s, tHigh.2), 0)

/-- State of a faithful transport: the device's register file and the
current register-address pointer (auto-incremented on multi-byte access). -/
structure RegFile where
  regs : Nat → Nat
  ptr : Nat

/-- Store a byte sequence into consecutive registers starting at `p`
(the device's address auto-increment during a multi-byte write). -/
def storeSeq (regs : Nat → Nat) (p : Nat) : List Nat → (Nat → Nat)
  | [] => regs
  | v :: rest => storeSeq (fun r => if r = p then v % 256 else regs r) (p + 1) rest

/-- Bytes returned by reading `n` consecutive registers starting at `p`
(the device's address auto-increment during a multi-byte read). -/
def readOut (regs : Nat → Nat) (p : Nat) : Nat → List Nat
  | 0 => []
  | n + 1 => regs p % 256 :: readOut regs (p + 1) n

/-- One transaction's effect on the faithful transport's state: a write
sets the register pointer to its first byte and stores the remaining
bytes at consecutive addresses; a read advances the pointer. -/
def rfStep (rf : RegFile) : BusReq → RegFile
  | BusReq.write _ [] => rf
  | BusReq.write _ (r :: rest) =>
      { regs := storeSeq rf.regs (r % 256) rest, ptr := r % 256 + rest.length }
  | BusReq.read _ n => { rf with ptr := rf.ptr + n }

/-- Replay a transaction history against the faithful transport. -/
def rfRun (rf : RegFile) (tr : List BusReq) : RegFile :=
  tr.foldl rfStep rf

/-- A faithful bus transport backed by a register file with initial
contents `regs0`: every transfer succeeds, and reads return the registers
at the pointer established by the preceding address write. -/
def faithfulEnv (regs0 : Nat → Nat) : Env := fun tr req =>
  match req with
  | BusReq.write _ _ => ⟨0, []⟩
  | BusReq.read _ n =>
      let rf := rfRun ⟨regs0, 0⟩ tr
      ⟨0, readOut rf.regs rf.ptr n⟩

/-- Specification-side value of a raw byte pair `(lo, hi)`: the 16-bit
word `(hi <<< 8) ||| lo` interpreted as a two's-complement signed value. -/
def specSigned16 (lo hi : Nat) : Int :=
  if (hi <<< 8) ||| lo < 32768 then (((hi <<< 8) ||| lo : Nat) : Int)
  else (((hi <<< 8) ||| lo : Nat) : Int) - 65536

/-- A concrete post-init handle used to instantiate the universal
theorems below on an explicit input. -/
def testHandle : LSM6 :=
  { device := LSM6DeviceType.LSM6_DEVICE_TYPE_DS33, address := 0x6B,
    lastResult := 0, a := [7, 7, 7], g := [7, 7, 7] }

/-- A concrete transport that answers every 6-byte block read with the
byte sequence 01 02 FF FF 00 80 and succeeds on everything. -/
def envBytes : Env := fun _ req =>
  match req with
  | BusReq.read _ 6 => ⟨0, [1, 2, 255, 255, 0, 128]⟩
  | _ => ⟨0, []⟩

/-- A concrete transport on which every transfer fails (status 1), reads
returning all-zero bytes. -/
def envFail : Env := fun _ req =>
  match req with
  | BusReq.read _ n => ⟨1, List.replicate n 0⟩
  | _ => ⟨1, []⟩

/-- A concrete transport on which only the SA0-low candidate address
answers the identity probe with the expected WHO_AM_I byte. -/
def envOnlyLow : Env := fun _ req =>
  match req with
  | BusReq.read devAddr _ =>
      if devAddr = LSM6_SA0_LOW_ADDR then ⟨0, [LSM6_DS33_WHO_ID]⟩ else ⟨0, [0]⟩
  | _ => ⟨0, []⟩

/-- Specification-side reading of "the candidate address responds with the
expected identity byte": both parts of the identity-register transfer at
that bus address succeed and the byte delivered is the expected WHO_AM_I
value. -/
def respondsWhoAmI (env : Env) (tr : List BusReq) (devAddr : Nat) : Prop :=
  (env tr (BusReq.write devAddr [LSM6_WHO_AM_I])).status = 0 ∧
  (env (tr ++ [BusReq.write devAddr [LSM6_WHO_AM_I]])
    (BusReq.read devAddr 1)).status = 0 ∧
  (env (tr ++ [BusReq.write devAddr [LSM6_WHO_AM_I]])
    (BusReq.read devAddr 1)).data.headD 0 % 256 = LSM6_DS33_WHO_ID

theorem shiftLeft_or_eq_add : ∀ (n a b : Nat), b < 2 ^ n → (a <<< n) ||| b = 2 ^ n * a + b := by
  intro n
  induction n with
  | zero =>
      intro a b hb
      have hb0 : b = 0 := by omega
      subst hb0
      simp
  | succ n ih =>
      intro a b hb
      have hdiv : ((a <<< (n + 1)) ||| b) / 2 = 2 ^ n * a + b / 2 := by
        rw [Nat.or_div_two, Nat.shiftLeft_succ, Nat.mul_div_cancel_left _ (by norm_num : 0 < 2)]
        exact ih a (b / 2) (by
          have := Nat.pow_succ 2 n
          omega)
      have hmod : ((a <<< (n + 1)) ||| b) % 2 = b % 2 := by
        have heven : (a <<< (n + 1)) % 2 = 0 := by
          rw [Nat.shiftLeft_succ, Nat.mul_mod_right]
        rcases Nat.mod_two_eq_zero_or_one b with h | h
        · rcases Nat.mod_two_eq_zero_or_one ((a <<< (n + 1)) ||| b) with h2 | h2
          · omega
          · have := Nat.or_mod_two_eq_one.mp h2
            omega
        · rw [h]
          exact Nat.or_mod_two_eq_one.mpr (Or.inr h)
      have hsplit := Nat.div_add_mod ((a <<< (n + 1)) ||| b) 2
      have hbsplit := Nat.div_add_mod b 2
      have hpow : 2 ^ (n + 1) * a = 2 * (2 ^ n * a) := by ring
      omega

theorem byte_or_eq_add (lo hi : Nat) (hlo : lo < 256) : (hi <<< 8) ||| lo = 256 * hi + lo := by
  have h := shiftLeft_or_eq_add 8 hi lo (by norm_num; omega)
  norm_num at h
  omega

/-- The driver's little-endian byte reassembly agrees with the
specification's `(hi << 8) | lo` two's-complement reading on bytes. -/
theorem s16_word16_eq_specSigned16 (lo hi : Nat) (hlo : lo < 256) (hhi : hi < 256) :
    s16 (word16 lo hi) = specSigned16 lo hi := by
  unfold s16 word16 specSigned16
  rw [byte_or_eq_add lo hi hlo, Nat.mod_eq_of_lt hlo, Nat.mod_eq_of_lt hhi]
  have hlt : lo + 256 * hi < 65536 := by omega
  rw [Nat.mod_eq_of_lt (by omega : lo + 256 * hi < 65536)]
  have : 256 * hi + lo = lo + 256 * hi := by omega
  rw [this]

theorem readOut_succ (regs : Nat → Nat) (p n : Nat) :
    readOut regs p (n + 1) = regs p % 256 :: readOut regs (p + 1) n := rfl

theorem word16_mod (lo hi : Nat) : word16 (lo % 256) (hi % 256) = word16 lo hi := by
  simp [word16, Nat.mod_mod_of_dvd]

/-- C8: every driver operation leaves the handle's bus address (and device
variant) unchanged, for every environment — in particular for any handle
produced by a successful `lsm6Init` and whether the operation's transfers
succeed or fail. -/
theorem lsm6_ops_preserve_address (env : Env) (s : LSM6) (tr : List BusReq)
    (reg value : Nat) :
    (lsm6EnableDefault env s tr).1.address = s.address ∧
    (lsm6WriteReg env s tr reg value).1.address = s.address ∧
    (lsm6ReadReg env s tr reg).1.1.address = s.address ∧
    (lsm6Read env s tr).1.address = s.address ∧
    (lsm6ReadAcc env s tr).1.address = s.address ∧
    (lsm6ReadGyro env s tr).1.address = s.address := by
  refine ⟨rfl, rfl, rfl, rfl, rfl, rfl⟩

/-- C9: the convenience reader `lsm6Read` is exactly `lsm6ReadAcc` followed
by `lsm6ReadGyro`: same final handle state and same bus-transaction trace,
for every handle state and every transport behavior. -/
theorem lsm6Read_eq_lsm6ReadAcc_then_lsm6ReadGyro (env : Env) (s : LSM6)
    (tr : List BusReq) :
    lsm6Read env s tr =
      lsm6ReadGyro env (lsm6ReadAcc env s tr).1 (lsm6ReadAcc env s tr).2 := by
  rfl

/-- C6: the register address constants are the bit-exact LSM6DS33 map
values (in particular WHO_AM_I, CTRL1_XL, CTRL2_G, CTRL3_C, OUTX_L_G and
OUTX_L_XL), and every operation that names a register sends exactly these
constants as the address byte of its bus transactions. -/
theorem lsm6_register_map_constants (env : Env) (s : LSM6) (tr : List BusReq)
    (dev : LSM6DeviceType) :
    (LSM6_WHO_AM_I = 0x0F ∧ LSM6_CTRL1_XL = 0x10 ∧ LSM6_CTRL2_G = 0x11 ∧
     LSM6_CTRL3_C = 0x12 ∧ LSM6_OUTX_L_G = 0x22 ∧ LSM6_OUTX_L_XL = 0x28) ∧
    (lsm6ReadAcc env s tr).2 =
      tr ++ [BusReq.write s.address [LSM6_OUTX_L_XL], BusReq.read s.address 6] ∧
    (lsm6ReadGyro env s tr).2 =
      tr ++ [BusReq.write s.address [LSM6_OUTX_L_G], BusReq.read s.address 6] ∧
    (lsm6EnableDefault env s tr).2 =
      tr ++ [BusReq.write s.address [LSM6_CTRL1_XL, LSM6_CTRL1_XL_DEFAULT],
             BusReq.write s.address [LSM6_CTRL2_G, LSM6_CTRL2_G_DEFAULT],
             BusReq.write s.address [LSM6_CTRL3_C, LSM6_CTRL3_C_DEFAULT]] ∧
    (lsm6Init env s tr dev LSM6SA0State.LSM6_SA0_LOW).1.2 =
      tr ++ [BusReq.write LSM6_SA0_LOW_ADDR [LSM6_WHO_AM_I],
             BusReq.read LSM6_SA0_LOW_ADDR 1] := by
  refine ⟨⟨rfl, rfl, rfl, rfl, rfl, rfl⟩, ?_, ?_, ?_, ?_⟩
  · simp [lsm6ReadAcc, busWrite, busRead, List.append_assoc]
  · simp [lsm6ReadGyro, busWrite, busRead, List.append_assoc]
  · simp [lsm6EnableDefault, lsm6WriteReg, busWrite, List.append_assoc,
      LSM6_CTRL1_XL, LSM6_CTRL2_G, LSM6_CTRL3_C,
      LSM6_CTRL1_XL_DEFAULT, LSM6_CTRL2_G_DEFAULT, LSM6_CTRL3_C_DEFAULT]
  · simp only [lsm6Init, lsm6TestWhoAmI, busWrite, busRead]
    split <;> simp [List.append_assoc]

/-- C7: `lsm6WriteReg` issues exactly one two-byte bus write (register
address byte, then value byte) and sets `lastResult` from the transport
result, touching nothing else of the handle; `lsm6ReadReg` issues a
one-byte bus write of the register address followed by a one-byte bus
read, sets `lastResult` (zero exactly when both transfer parts
succeeded), and returns the byte the transport delivered. -/
theorem lsm6WriteReg_lsm6ReadReg_bus_shape (env : Env) (s : LSM6)
    (tr : List BusReq) (reg value : Nat) :
    (lsm6WriteReg env s tr reg value).2 =
      tr ++ [BusReq.write s.address [reg % 256, value % 256]] ∧
    (lsm6WriteReg env s tr reg value).1.lastResult =
      (env tr (BusReq.write s.address [reg % 256, value % 256])).status ∧
    (lsm6WriteReg env s tr reg value).1.a = s.a ∧
    (lsm6WriteReg env s tr reg value).1.g = s.g ∧
    (lsm6ReadReg env s tr reg).1.2 =
      tr ++ [BusReq.write s.address [reg % 256], BusReq.read s.address 1] ∧
    ((lsm6ReadReg env s tr reg).1.1.lastResult = 0 ↔
      (env tr (BusReq.write s.address [reg % 256])).status = 0 ∧
      (env (tr ++ [BusReq.write s.address [reg % 256]])
        (BusReq.read s.address 1)).status = 0) ∧
    (lsm6ReadReg env s tr reg).2 =
      (env (tr ++ [BusReq.write s.address [reg % 256]])
        (BusReq.read s.address 1)).data.headD 0 % 256 ∧
    (lsm6ReadReg env s tr reg).1.1.a = s.a ∧
    (lsm6ReadReg env s tr reg).1.1.g = s.g := by
  refine ⟨rfl, rfl, rfl, rfl, ?_, ?_, rfl, rfl, rfl⟩
  · simp [lsm6ReadReg, busWrite, busRead, List.append_assoc]
  · simp only [lsm6ReadReg, busWrite, busRead, combineStatus]
    split <;> rename_i h <;> simp <;> omega

/-- C1: for every 6-byte raw block delivered by the transport, the axis
values stored by `lsm6ReadAcc` into `a` and by `lsm6ReadGyro` into `g`
are the signed 16-bit values `(hi <<< 8) ||| lo` of the byte pairs,
interpreted as two's complement, in XYZ order; each reader issues a
6-byte read starting at its block's X-low register. -/
theorem lsm6ReadAcc_readGyro_assemble_signed16 (env : Env) (s : LSM6)
    (tr : List BusReq) (b0 b1 b2 b3 b4 b5 c0 c1 c2 c3 c4 c5 : Nat)
    (hbA : (env (tr ++ [BusReq.write s.address [LSM6_OUTX_L_XL]])
      (BusReq.read s.address 6)).data = [b0, b1, b2, b3, b4, b5])
    (hltA : b0 < 256 ∧ b1 < 256 ∧ b2 < 256 ∧ b3 < 256 ∧ b4 < 256 ∧ b5 < 256)
    (hbG : (env (tr ++ [BusReq.write s.address [LSM6_OUTX_L_G]])
      (BusReq.read s.address 6)).data = [c0, c1, c2, c3, c4, c5])
    (hltG : c0 < 256 ∧ c1 < 256 ∧ c2 < 256 ∧ c3 < 256 ∧ c4 < 256 ∧ c5 < 256) :
    (lsm6ReadAcc env s tr).1.a =
      [specSigned16 b0 b1, specSigned16 b2 b3, specSigned16 b4 b5] ∧
    (lsm6ReadAcc env s tr).2 =
      tr ++ [BusReq.write s.address [LSM6_OUTX_L_XL], BusReq.read s.address 6] ∧
    (lsm6ReadGyro env s tr).1.g =
      [specSigned16 c0 c1, specSigned16 c2 c3, specSigned16 c4 c5] ∧
    (lsm6ReadGyro env s tr).2 =
      tr ++ [BusReq.write s.address [LSM6_OUTX_L_G], BusReq.read s.address 6] := by
  obtain ⟨h0, h1, h2, h3, h4, h5⟩ := hltA
  obtain ⟨k0, k1, k2, k3, k4, k5⟩ := hltG
  refine ⟨?_, ?_, ?_, ?_⟩
  · simp [lsm6ReadAcc, busWrite, busRead, assembleAxes, hbA,
      s16_word16_eq_specSigned16 _ _ h0 h1,
      s16_word16_eq_specSigned16 _ _ h2 h3,
      s16_word16_eq_specSigned16 _ _ h4 h5]
  · simp [lsm6ReadAcc, busWrite, busRead, List.append_assoc]
  · simp [lsm6ReadGyro, busWrite, busRead, assembleAxes, hbG,
      s16_word16_eq_specSigned16 _ _ k0 k1,
      s16_word16_eq_specSigned16 _ _ k2 k3,
      s16_word16_eq_specSigned16 _ _ k4 k5]
  · simp [lsm6ReadGyro, busWrite, busRead, List.append_assoc]

/-- C1 witness: on the concrete transport `envBytes` (bytes
01 02 FF FF 00 80) the assembled samples are 0x0201 = 513, -1 and
-32768, for both readers. -/
theorem lsm6ReadAcc_readGyro_assemble_signed16_witness :
    (lsm6ReadAcc envBytes testHandle []).1.a =
      [specSigned16 1 2, specSigned16 255 255, specSigned16 0 128] ∧
    (lsm6ReadAcc envBytes testHandle []).2 =
      [BusReq.write testHandle.address [LSM6_OUTX_L_XL],
       BusReq.read testHandle.address 6] ∧
    (lsm6ReadGyro envBytes testHandle []).1.g =
      [specSigned16 1 2, specSigned16 255 255, specSigned16 0 128] ∧
    (lsm6ReadGyro envBytes testHandle []).2 =
      [BusReq.write testHandle.address [LSM6_OUTX_L_G],
       BusReq.read testHandle.address 6] := by
  have h := lsm6ReadAcc_readGyro_assemble_signed16 envBytes testHandle []
    1 2 255 255 0 128 1 2 255 255 0 128 rfl (by decide) rfl (by decide)
  simpa using h

theorem lsm6TestWhoAmI_eq_true_iff (env : Env) (tr : List BusReq) (d : Nat) :
    (lsm6TestWhoAmI env tr d).1 = true ↔ respondsWhoAmI env tr d := by
  simp [lsm6TestWhoAmI, busWrite, busRead, respondsWhoAmI, and_assoc]

/-- C4: `lsm6Init` with a forced address-select state returns 1 exactly
when the identity register read at the forced address delivers the
expected identity byte, and 0 exactly when it does not. -/
theorem lsm6Init_forced_sa0 (env : Env) (s : LSM6) (tr : List BusReq)
    (dev : LSM6DeviceType) :
    ((lsm6Init env s tr dev LSM6SA0State.LSM6_SA0_LOW).2 = 1 ↔
      respondsWhoAmI env tr LSM6_SA0_LOW_ADDR) ∧
    ((lsm6Init env s tr dev LSM6SA0State.LSM6_SA0_LOW).2 = 0 ↔
      ¬ respondsWhoAmI env tr LSM6_SA0_LOW_ADDR) ∧
    ((lsm6Init env s tr dev LSM6SA0State.LSM6_SA0_HIGH).2 = 1 ↔
      respondsWhoAmI env tr LSM6_SA0_HIGH_ADDR) ∧
    ((lsm6Init env s tr dev LSM6SA0State.LSM6_SA0_HIGH).2 = 0 ↔
      ¬ respondsWhoAmI env tr LSM6_SA0_HIGH_ADDR) := by
  have hL := lsm6TestWhoAmI_eq_true_iff env tr LSM6_SA0_LOW_ADDR
  have hH := lsm6TestWhoAmI_eq_true_iff env tr LSM6_SA0_HIGH_ADDR
  refine ⟨?_, ?_, ?_, ?_⟩ <;>
    [rw [← hL]; rw [← hL]; rw [← hH]; rw [← hH]] <;>
    simp only [lsm6Init] <;> split <;> simp_all

/-- C3: `lsm6Init` with the auto-probe address-select state returns 1
exactly when exactly one of the two candidate bus addresses responds with
the expected identity byte; it then selects that address into the
handle.  Zero or two correct responses return 0. -/
theorem lsm6Init_auto_probe (env : Env) (s : LSM6) (tr : List BusReq)
    (dev : LSM6DeviceType) :
    ((lsm6Init env s tr dev LSM6SA0State.LSM6_SA0_AUTO).2 = 1 ↔
      (lsm6TestWhoAmI env tr LSM6_SA0_LOW_ADDR).1 ≠
      (lsm6TestWhoAmI env (lsm6TestWhoAmI env tr LSM6_SA0_LOW_ADDR).2
        LSM6_SA0_HIGH_ADDR).1) ∧
    ((lsm6TestWhoAmI env tr LSM6_SA0_LOW_ADDR).1 = true →
     (lsm6TestWhoAmI env (lsm6TestWhoAmI env tr LSM6_SA0_LOW_ADDR).2
        LSM6_SA0_HIGH_ADDR).1 = false →
     (lsm6Init env s tr dev LSM6SA0State.LSM6_SA0_AUTO).2 = 1 ∧
     (lsm6Init env s tr dev LSM6SA0State.LSM6_SA0_AUTO).1.1.address =
       LSM6_SA0_LOW_ADDR) ∧
    ((lsm6TestWhoAmI env tr LSM6_SA0_LOW_ADDR).1 = false →
     (lsm6TestWhoAmI env (lsm6TestWhoAmI env tr LSM6_SA0_LOW_ADDR).2
        LSM6_SA0_HIGH_ADDR).1 = true →
     (lsm6Init env s tr dev LSM6SA0State.LSM6_SA0_AUTO).2 = 1 ∧
     (lsm6Init env s tr dev LSM6SA0State.LSM6_SA0_AUTO).1.1.address =
       LSM6_SA0_HIGH_ADDR) ∧
    ((lsm6TestWhoAmI env tr LSM6_SA0_LOW_ADDR).1 =
     (lsm6TestWhoAmI env (lsm6TestWhoAmI env tr LSM6_SA0_LOW_ADDR).2
        LSM6_SA0_HIGH_ADDR).1 →
     (lsm6Init env s tr dev LSM6SA0State.LSM6_SA0_AUTO).2 = 0) := by
  cases hLow : (lsm6TestWhoAmI env tr LSM6_SA0_LOW_ADDR).1 <;>
  cases hHigh : (lsm6TestWhoAmI env (lsm6TestWhoAmI env tr LSM6_SA0_LOW_ADDR).2
      LSM6_SA0_HIGH_ADDR).1 <;>
    simp [lsm6Init, hLow, hHigh]

/-- C3 witness: on the concrete transport `envOnlyLow` only the SA0-low
candidate responds; auto-probe init succeeds and selects that address. -/
theorem lsm6Init_auto_probe_witness :
    (lsm6Init envOnlyLow testHandle [] LSM6DeviceType.LSM6_DEVICE_TYPE_AUTO
      LSM6SA0State.LSM6_SA0_AUTO).2 = 1 ∧
    (lsm6Init envOnlyLow testHandle [] LSM6DeviceType.LSM6_DEVICE_TYPE_AUTO
      LSM6SA0State.LSM6_SA0_AUTO).1.1.address = LSM6_SA0_LOW_ADDR := by
  exact (lsm6Init_auto_probe envOnlyLow testHandle []
    LSM6DeviceType.LSM6_DEVICE_TYPE_AUTO).2.1 (by decide) (by decide)

theorem readOut_zero (regs : Nat → Nat) (p : Nat) : readOut regs p 0 = [] := rfl

/-- C5: on a faithful transport, `lsm6EnableDefault` succeeds and a
subsequent register read of each touched control register returns exactly
the documented constant written: 0x80 to CTRL1_XL (1.66 kHz ODR, ±2 g),
0x80 to CTRL2_G (1.66 kHz ODR, 245 dps) and 0x04 to CTRL3_C (address
auto-increment), for every initial register contents and handle. -/
theorem lsm6EnableDefault_readback (regs0 : Nat → Nat) (s : LSM6) :
    (LSM6_CTRL1_XL_DEFAULT = 0x80 ∧ LSM6_CTRL2_G_DEFAULT = 0x80 ∧
     LSM6_CTRL3_C_DEFAULT = 0x04) ∧
    (lsm6EnableDefault (faithfulEnv regs0) s []).1.lastResult = 0 ∧
    (lsm6ReadReg (faithfulEnv regs0) (lsm6EnableDefault (faithfulEnv regs0) s []).1
      (lsm6EnableDefault (faithfulEnv regs0) s []).2 LSM6_CTRL1_XL).2 =
      LSM6_CTRL1_XL_DEFAULT ∧
    (lsm6ReadReg (faithfulEnv regs0) (lsm6EnableDefault (faithfulEnv regs0) s []).1
      (lsm6EnableDefault (faithfulEnv regs0) s []).2 LSM6_CTRL2_G).2 =
      LSM6_CTRL2_G_DEFAULT ∧
    (lsm6ReadReg (faithfulEnv regs0) (lsm6EnableDefault (faithfulEnv regs0) s []).1
      (lsm6EnableDefault (faithfulEnv regs0) s []).2 LSM6_CTRL3_C).2 =
      LSM6_CTRL3_C_DEFAULT := by
  refine ⟨⟨rfl, rfl, rfl⟩, ?_, ?_, ?_, ?_⟩ <;>
    simp [lsm6EnableDefault, lsm6WriteReg, lsm6ReadReg, busWrite, busRead,
      faithfulEnv, rfRun, rfStep, storeSeq, readOut_succ, readOut_zero,
      combineStatus, List.foldl,
      LSM6_CTRL1_XL, LSM6_CTRL2_G, LSM6_CTRL3_C,
      LSM6_CTRL1_XL_DEFAULT, LSM6_CTRL2_G_DEFAULT, LSM6_CTRL3_C_DEFAULT]

/-- C10: the six gyro output registers occupy consecutive addresses 0x22
through 0x27 and the six accelerometer output registers 0x28 through
0x2D, each ordered low byte then high byte for X, Y, Z — so the 6-byte
auto-incrementing read issued by each reader covers exactly the three
axes of its sensor: on a faithful transport the stored samples are
assembled from exactly those six registers in order. -/
theorem lsm6_output_register_blocks (regs0 : Nat → Nat) (s : LSM6) :
    ([LSM6_OUTX_L_G, LSM6_OUTX_H_G, LSM6_OUTY_L_G, LSM6_OUTY_H_G,
      LSM6_OUTZ_L_G, LSM6_OUTZ_H_G] = [0x22, 0x23, 0x24, 0x25, 0x26, 0x27]) ∧
    ([LSM6_OUTX_L_XL, LSM6_OUTX_H_XL, LSM6_OUTY_L_XL, LSM6_OUTY_H_XL,
      LSM6_OUTZ_L_XL, LSM6_OUTZ_H_XL] = [0x28, 0x29, 0x2A, 0x2B, 0x2C, 0x2D]) ∧
    (lsm6ReadAcc (faithfulEnv regs0) s []).1.a =
      [ s16 (word16 (regs0 LSM6_OUTX_L_XL) (regs0 LSM6_OUTX_H_XL)),
        s16 (word16 (regs0 LSM6_OUTY_L_XL) (regs0 LSM6_OUTY_H_XL)),
        s16 (word16 (regs0 LSM6_OUTZ_L_XL) (regs0 LSM6_OUTZ_H_XL)) ] ∧
    (lsm6ReadGyro (faithfulEnv regs0) s []).1.g =
      [ s16 (word16 (regs0 LSM6_OUTX_L_G) (regs0 LSM6_OUTX_H_G)),
        s16 (word16 (regs0 LSM6_OUTY_L_G) (regs0 LSM6_OUTY_H_G)),
        s16 (word16 (regs0 LSM6_OUTZ_L_G) (regs0 LSM6_OUTZ_H_G)) ] := by
  refine ⟨rfl, rfl, ?_, ?_⟩ <;>
    simp [lsm6ReadAcc, lsm6ReadGyro, busWrite, busRead, faithfulEnv, rfRun,
      rfStep, storeSeq, readOut_succ, readOut_zero, assembleAxes, word16_mod,
      List.foldl, LSM6_OUTX_L_XL, LSM6_OUTX_H_XL, LSM6_OUTY_L_XL,
      LSM6_OUTY_H_XL, LSM6_OUTZ_L_XL, LSM6_OUTZ_H_XL, LSM6_OUTX_L_G,
      LSM6_OUTX_H_G, LSM6_OUTY_L_G, LSM6_OUTY_H_G, LSM6_OUTZ_L_G,
      LSM6_OUTZ_H_G]

theorem combineStatus_eq_zero (s1 s2 : Nat) :
    combineStatus s1 s2 = 0 ↔ s1 = 0 ∧ s2 = 0 := by
  simp [combineStatus]
  split <;> omega

/-- C2 counterexample: on the concrete all-failing transport `envFail`,
`lsm6ReadAcc` from a handle holding samples [7, 7, 7] sets a non-zero
`lastResult` but does NOT retain the pre-failure sample values: `a` is
overwritten with values assembled from the returned bytes (here zeros),
refuting the claim that samples always retain their pre-failure values
after a failed call. -/
theorem lsm6ReadAcc_failure_overwrites_cex :
    (lsm6ReadAcc envFail testHandle []).1.lastResult ≠ 0 ∧
    (lsm6ReadAcc envFail testHandle []).1.a ≠ testHandle.a := by
  decide

/-- C2 amended: after an operation whose bus transfer fails, `lastResult`
is non-zero (it is zero exactly when every part of the operation's final
transfer succeeded); operations that do not target a sample block leave
`a` and `g` exactly as they were, and each block reader leaves the other
sensor's array unchanged — but a failed `lsm6ReadAcc`/`lsm6ReadGyro`
overwrites its own target array with values assembled from whatever bytes
the transport returned (the spec's documented failure semantics), rather
than retaining the pre-failure values. -/
theorem lsm6_failure_semantics (env : Env) (s : LSM6) (tr : List BusReq)
    (reg value : Nat) :
    ((lsm6WriteReg env s tr reg value).1.lastResult = 0 ↔
      (env tr (BusReq.write s.address [reg % 256, value % 256])).status = 0) ∧
    (lsm6WriteReg env s tr reg value).1.a = s.a ∧
    (lsm6WriteReg env s tr reg value).1.g = s.g ∧
    ((lsm6ReadReg env s tr reg).1.1.lastResult = 0 ↔
      (env tr (BusReq.write s.address [reg % 256])).status = 0 ∧
      (env (tr ++ [BusReq.write s.address [reg % 256]])
        (BusReq.read s.address 1)).status = 0) ∧
    (lsm6ReadReg env s tr reg).1.1.a = s.a ∧
    (lsm6ReadReg env s tr reg).1.1.g = s.g ∧
    (lsm6EnableDefault env s tr).1.a = s.a ∧
    (lsm6EnableDefault env s tr).1.g = s.g ∧
    ((lsm6ReadAcc env s tr).1.lastResult = 0 ↔
      (env tr (BusReq.write s.address [LSM6_OUTX_L_XL])).status = 0 ∧
      (env (tr ++ [BusReq.write s.address [LSM6_OUTX_L_XL]])
        (BusReq.read s.address 6)).status = 0) ∧
    (lsm6ReadAcc env s tr).1.g = s.g ∧
    (lsm6ReadAcc env s tr).1.a =
      assembleAxes (env (tr ++ [BusReq.write s.address [LSM6_OUTX_L_XL]])
        (BusReq.read s.address 6)).data ∧
    ((lsm6ReadGyro env s tr).1.lastResult = 0 ↔
      (env tr (BusReq.write s.address [LSM6_OUTX_L_G])).status = 0 ∧
      (env (tr ++ [BusReq.write s.address [LSM6_OUTX_L_G]])
        (BusReq.read s.address 6)).status = 0) ∧
    (lsm6ReadGyro env s tr).1.a = s.a ∧
    (lsm6ReadGyro env s tr).1.g =
      assembleAxes (env (tr ++ [BusReq.write s.address [LSM6_OUTX_L_G]])
        (BusReq.read s.address 6)).data := by
  refine ⟨?_, rfl, rfl, ?_, rfl, rfl, rfl, rfl, ?_, rfl, rfl, ?_, rfl, rfl⟩ <;>
    simp [lsm6WriteReg, lsm6ReadReg, lsm6ReadAcc, lsm6ReadGyro, busWrite,
      busRead, combineStatus_eq_zero]
